import Mathlib

/-!
Verification of the vertical-profile feature pipeline of `ptype`
(`src/ptype/inference.py`) against its specification.

The pipeline's numeric code is embedded shallowly over `ℚ` (the Python code
computes with IEEE doubles; the rational embedding is the exact idealization
of the same arithmetic).  Tabular data (`pandas.DataFrame`) is embedded as
association lists from column names to columns; `xarray.Dataset` objects are
embedded as a structure of named 2-D fields plus coordinate names.  Python
exceptions become `Except` values.
-/

namespace Ptype

/-- Error kinds of the pipeline (the spec's error taxonomy): `shapeError` is
the failure of the reshape in `grid_predictions` (a row-count/grid-shape
mismatch), `dimensionMismatchError` is the failure of column selection in
`convert_and_interpolate` (a configured pressure-level column absent from the
profile data). -/
inductive Err where
  | shapeError
  | dimensionMismatchError
deriving DecidableEq, Repr

/-! ### `np.arange` and the target height levels

`convert_and_interpolate` builds the height levels as
`np.arange(start=low, stop=high + interval, step=interval)`
(src/ptype/inference.py lines 174-176).  `np.arange(start, stop, step)` with a
positive step produces `ceil((stop - start) / step)` elements
`start + k * step`. -/

/-- Embedding of `np.arange(start, stop, step)` over `ℚ`. -/
def arange (start stop step : ℚ) : List ℚ :=
  if step ≤ 0 then []
  else (List.range (Int.toNat ⌈(stop - start) / step⌉)).map (fun k : ℕ => start + (k : ℚ) * step)

/-- The target height-level sequence of `convert_and_interpolate`:
`np.arange(low, high + interval, interval)`. -/
def heightLevels (low high interval : ℚ) : List ℚ :=
  arange low (high + interval) interval

/-! ### `np.interp` and `interpolate`

`interpolate` (src/ptype/inference.py lines 196-205) fills row `i` of its
output with `np.interp(x=height_levels, xp=x[i], fp=y[i])`.  `np.interp`
performs one-dimensional piecewise-linear interpolation over an increasing
abscissa `xp`, clamping to `fp[0]` below `xp[0]` and to `fp[-1]` above
`xp[-1]`. -/

/-- Scan of `np.interp`: `xprev, fprev` is the last abscissa/ordinate pair
already passed; clamps to the last ordinate beyond the right end. -/
def npInterpGo (t : ℚ) : ℚ → ℚ → List ℚ → List ℚ → ℚ
  | _, fprev, [], _ => fprev
  | _, fprev, _, [] => fprev
  | xprev, fprev, x1 :: xs, f1 :: fs =>
    if t ≤ x1 then fprev + (f1 - fprev) * (t - xprev) / (x1 - xprev)
    else npInterpGo t x1 f1 xs fs

/-- Embedding of `np.interp(t, xp, fp)` for a single target `t`. -/
def npInterp (t : ℚ) (xp fp : List ℚ) : ℚ :=
  match xp, fp with
  | [], _ => 0
  | _, [] => 0
  | x0 :: xs, f0 :: fs => if t ≤ x0 then f0 else npInterpGo t x0 f0 xs fs

/-- Embedding of `interpolate(x, y, height_levels)` (src/ptype/inference.py lines 196-205):
row `i` of the result is `np.interp(height_levels, x[i], y[i])`. -/
def interpolate (x y : List (List ℚ)) (hl : List ℚ) : List (List ℚ) :=
  List.zipWith (fun xi yi => hl.map (fun t => npInterp t xi yi)) x y

/-! ### The Profile Flattener (`df_flatten`, src/ptype/inference.py lines 20-36) -/

/-- A labeled multi-level field (the `xr.Dataset` of pressure-level
variables): the values on the vertical-level axis, in native order, and the
2-D spatial slice of a variable at a level. -/
structure NWPField where
  levels : List ℤ
  slice : String → ℤ → List (List ℚ)

/-- The column name `f"{v}_{int(p)}"` used by `df_flatten` and
`convert_and_interpolate`. -/
def mkColName (v : String) (p : ℤ) : String :=
  v ++ "_" ++ toString p

/-- Embedding of `df_flatten(ds, varsP)`: for each variable (variable-major), for each
vertical level in native order (level-minor), one column named
`<variable>_<level>` holding the row-major flattening (`reshape(-1, 1)`)
of the 2-D slice at that level. -/
def dfFlatten (ds : NWPField) (varsP : List String) : List (String × List ℚ) :=
  (varsP.map (fun v =>
    ds.levels.map (fun p => (mkColName v p, (ds.slice v p).flatten)))).flatten

/-! ### The Vertical Interpolator
(`convert_and_interpolate`, src/ptype/inference.py lines 161-193) -/

/-- A flat table: the number of spatial points (rows) and the named columns. -/
structure FlatTable where
  nrows : ℕ
  cols : List (String × List ℚ)

/-- The column names `[f"{var}_{int(x)}" for x in pressure_levels]` of one
variable (src/ptype/inference.py lines 177-178). -/
def profileCols (plevels : List ℤ) (v : String) : List String :=
  plevels.map (fun p => mkColName v p)

/-- Look up every requested column; `none` as soon as one is absent (the
pandas `KeyError` of `data[names]`). -/
def lookupAll (cols : List (String × List ℚ)) : List String → Option (List (List ℚ))
  | [] => some []
  | n :: ns =>
    match cols.lookup n, lookupAll cols ns with
    | some c, some rest => some (c :: rest)
    | _, _ => none

/-- Embedding of `data[names].values`: select the named columns and return the
rows × columns matrix.  A requested name absent from the table is a pandas
`KeyError`, modelled as `none`. -/
def getMatrix (data : FlatTable) (names : List String) : Option (List (List ℚ)) :=
  match lookupAll data.cols names with
  | none => none
  | some sel => some ((List.range data.nrows).map (fun i => sel.map (fun c => c.getD i 0)))

/-- Embedding of `height_interp_data[:, 0] = surface_data[sv]`: overwrite column 0 (the
lowest target height level) of every row with that point's surface value. -/
def setSurface (rows : List (List ℚ)) (svals : List ℚ) : List (List ℚ) :=
  List.zipWith
    (fun i row =>
      match row with
      | [] => []
      | _ :: t => svals.getD i 0 :: t)
    (List.range rows.length) rows

/-- One iteration of the `for v, sv in zip(variables, surface_variables)` loop
body (src/ptype/inference.py lines 185-189): select the variable's
pressure-level matrix, interpolate it onto the height levels against the
per-point height profiles, and overwrite the lowest level with the surface
observation.  A missing profile column or surface variable is a pandas
`KeyError`, modelled as `none`. -/
def interpBlock (heightData : List (List ℚ)) (data surface : FlatTable)
    (plevels : List ℤ) (hl : List ℚ) (v sv : String) : Option (List (List ℚ)) :=
  match getMatrix data (profileCols plevels v), surface.cols.lookup sv with
  | some pld, some svals => some (setSurface (interpolate heightData pld hl) svals)
  | _, _ => none

/-- The variables interpolated by `convert_and_interpolate`, paired with
their surface counterparts. -/
def surfacePairs : List (String × String) :=
  [("t", "t2m"), ("dpt", "d2m"), ("u", "u10"), ("v", "v10")]

/-- Embedding of `convert_and_interpolate(data, surface_data, pressure_levels,
height_levels)` (src/ptype/inference.py lines 161-193), the loop over the four
(variable, surface-variable) pairs unrolled; the final
`np.concatenate(var_arrays, axis=1)` joins the four blocks row-wise.  The
pandas `KeyError` raised when a configured column is absent is the spec's
`DimensionMismatchError`. -/
def convertAndInterpolate (data surface : FlatTable) (plevels : List ℤ)
    (low high interval : ℚ) : Except Err (List (List ℚ)) :=
  let hl := heightLevels low high interval
  match getMatrix data (profileCols plevels "hgt_above_sfc") with
  | none => .error .dimensionMismatchError
  | some heightData =>
    match interpBlock heightData data surface plevels hl "t" "t2m",
          interpBlock heightData data surface plevels hl "dpt" "d2m",
          interpBlock heightData data surface plevels hl "u" "u10",
          interpBlock heightData data surface plevels hl "v" "v10" with
    | some b1, some b2, some b3, some b4 =>
      .ok (((b1.zipWith (· ++ ·) b2).zipWith (· ++ ·) b3).zipWith (· ++ ·) b4)
    | _, _, _, _ => .error .dimensionMismatchError

/-! ### The Grid Reconstructor (`grid_predictions`, src/ptype/inference.py
lines 246-280) -/

/-- Scan of `np.argmax`: keeps the first index attaining the running maximum
(a later element replaces it only when strictly greater). -/
def argmaxGo : List ℚ → ℚ → ℕ → ℕ → ℕ
  | [], _, bi, _ => bi
  | a :: as, bv, bi, ci => if bv < a then argmaxGo as a ci (ci + 1) else argmaxGo as bv bi (ci + 1)

/-- Embedding of `np.argmax` over one row: the first (lowest) index attaining the maximum. -/
def argmax : List ℚ → ℕ
  | [] => 0
  | a :: as => argmaxGo as a 0 1

/-- Embedding of `np.hstack([preds, ptype])`: each row extended with its arg-max
(src/ptype/inference.py lines 256-257). -/
def preds2 (preds : List (List ℚ)) : List (List ℚ) :=
  preds.map (fun row => row ++ [(argmax row : ℚ)])

/-- The row of the flat prediction table that the row-major reshape places at
spatial position `(r, c)` of an `R × C` grid: flat index `r * C + c`. -/
def rowAt (p2 : List (List ℚ)) (C r c : ℕ) : List ℚ :=
  p2.getD (r * C + c) []

/-- Embedding of `reshaped_preds[:, :, i]`: the 2-D probability field of class `i`. -/
def probGrid (p2 : List (List ℚ)) (R C i : ℕ) : List (List ℚ) :=
  (List.range R).map (fun r => (List.range C).map (fun c => (rowAt p2 C r c).getD i 0))

/-- Embedding of `np.where(reshaped_preds[:, :, -1] == i, 1, 0)`: the categorical
indicator field of class `i` (the last channel holds the row arg-max). -/
def catGrid (p2 : List (List ℚ)) (R C i : ℕ) : List (List ℚ) :=
  (List.range R).map (fun r => (List.range C).map (fun c =>
    if (rowAt p2 C r c).getLast? = some (i : ℚ) then 1 else 0))

/-- The embedded `xr.Dataset` passed to `grid_predictions`: grid extents,
named 2-D data variables, and coordinate names. -/
structure XDS where
  ySize : ℕ
  xSize : ℕ
  dataVars : List (String × List (List ℚ))
  coords : List String
deriving DecidableEq, Repr

/-- Embedding of `data[name] = val` on an `xr.Dataset`: replace the variable in place if
present (keeping its position), otherwise append it. -/
def setVar (vs : List (String × List (List ℚ))) (name : String)
    (val : List (List ℚ)) : List (String × List (List ℚ)) :=
  match vs with
  | [] => [(name, val)]
  | (n, v) :: rest =>
    if n = name then (name, val) :: rest else (n, v) :: setVar rest name val

/-- The short class names of the loop in `grid_predictions`. -/
def classNames : List String := ["rain", "snow", "icep", "frzr"]

/-- The state of the `data` argument after the assignment loop of
`grid_predictions` (src/ptype/inference.py lines 259-265), the loop over the
four classes unrolled: the ML probability and categorical fields are written
into the dataset in place.  The subsequent dtype casts (`uint8`/`float32`,
lines 267-273) are value-preserving in the rational idealization and change
no variable set. -/
def gridMutatedData (data : XDS) (preds : List (List ℚ)) : XDS :=
  let p2 := preds2 preds
  let R := data.ySize
  let C := data.xSize
  let vs1 := setVar data.dataVars "ML_rain" (probGrid p2 R C 0)
  let vs2 := setVar vs1 "ML_crain" (catGrid p2 R C 0)
  let vs3 := setVar vs2 "ML_snow" (probGrid p2 R C 1)
  let vs4 := setVar vs3 "ML_csnow" (catGrid p2 R C 1)
  let vs5 := setVar vs4 "ML_icep" (probGrid p2 R C 2)
  let vs6 := setVar vs5 "ML_cicep" (catGrid p2 R C 2)
  let vs7 := setVar vs6 "ML_frzr" (probGrid p2 R C 3)
  let vs8 := setVar vs7 "ML_cfrzr" (catGrid p2 R C 3)
  { data with dataVars := vs8 }

/-- The coordinate names dropped at the end of `grid_predictions`
(src/ptype/inference.py lines 275-280). -/
def gribCoordNames : List String := ["isobaricInhPa", "heightAboveGround", "surface"]

/-- Embedding of `data.drop(drop_vars)`: a new dataset without the grib level coordinates. -/
def dropGribCoords (ds : XDS) : XDS :=
  { ds with coords := ds.coords.filter (fun n => !(gribCoordNames.contains n)) }

/-- Embedding of `grid_predictions(data, preds)` (src/ptype/inference.py lines 246-280).
The reshape of the `(rows, k+1)` prediction array to
`(data['y'].size, data['x'].size, k+1)` succeeds exactly when
`rows = ySize * xSize` (the trailing extent is carried over unchanged), and
raises a shape error otherwise, before any assignment into `data`. -/
def gridPredictions (data : XDS) (preds : List (List ℚ)) : Except Err XDS :=
  if preds.length = data.ySize * data.xSize then
    .ok (dropGribCoords (gridMutatedData data preds))
  else .error .shapeError

/-- The state of the `data` argument after a call of `grid_predictions`:
mutated by the assignment loop on success, untouched when the reshape fails
first. -/
def gridPredictionsDataAfter (data : XDS) (preds : List (List ℚ)) : XDS :=
  if preds.length = data.ySize * data.xSize then gridMutatedData data preds else data

/-- Value of the named 2-D variable of a dataset at position `(r, c)`. -/
def varAt (ds : XDS) (name : String) (r c : ℕ) : ℚ :=
  (((ds.dataVars.lookup name).getD []).getD r []).getD c 0

/-! ### Call-state wrappers

`df_flatten` and `convert_and_interpolate` contain no store into their
arguments (every write in them targets a freshly allocated array), so the
post-call state of each argument is the argument itself; the pairing below
makes that frame property a stated fact rather than an unstated one.
`grid_predictions` does store into its `data` argument, which
`gridPredictionsDataAfter` records. -/

/-- Run of `df_flatten` with the post-call state of its dataset argument. -/
def dfFlattenRun (ds : NWPField) (varsP : List String) :
    (List (String × List ℚ)) × NWPField :=
  (dfFlatten ds varsP, ds)

/-- Run of `convert_and_interpolate` with the post-call states of its table
arguments. -/
def convertAndInterpolateRun (data surface : FlatTable) (plevels : List ℤ)
    (low high interval : ℚ) :
    Except Err (List (List ℚ)) × FlatTable × FlatTable :=
  (convertAndInterpolate data surface plevels low high interval, data, surface)


/-- A concrete labeled field used by witnesses: two levels, constant 2 × 2
slices. -/
def exField : NWPField :=
  { levels := [925, 850], slice := fun _ _ => [[1, 2], [3, 4]] }

/-- A one-level labeled field used by the C4 witness. -/
def exField1 : NWPField :=
  { levels := [925], slice := fun _ _ => [[5]] }

/-- A concrete flattened profile table with one spatial point and two
pressure levels (500 and 1000), columns for all five profile variables. -/
def exProfile : FlatTable :=
  { nrows := 1,
    cols := [
      (mkColName "t" 500, [7]), (mkColName "t" 1000, [7]),
      (mkColName "dpt" 500, [6]), (mkColName "dpt" 1000, [6]),
      (mkColName "u" 500, [5]), (mkColName "u" 1000, [5]),
      (mkColName "v" 500, [4]), (mkColName "v" 1000, [4]),
      (mkColName "hgt_above_sfc" 500, [1]), (mkColName "hgt_above_sfc" 1000, [2])] }

/-- A concrete surface table with one spatial point. -/
def exSurface : FlatTable :=
  { nrows := 1,
    cols := [("t2m", [1]), ("d2m", [2]), ("u10", [3]), ("v10", [4])] }

/-! ### Helper lemmas -/

lemma getD_map_range {α : Type} (f : ℕ → α) (n i : ℕ) (d : α) (h : i < n) :
    ((List.range n).map f).getD i d = f i := by
  rw [List.getD_eq_getElem?_getD]
  simp [List.getElem?_map, List.getElem?_range, h]

lemma getD_zipWith {α β γ : Type} (f : α → β → γ) (as : List α) (bs : List β)
    (i : ℕ) (da : α) (db : β) (dc : γ) (ha : i < as.length) (hb : i < bs.length) :
    (List.zipWith f as bs).getD i dc = f (as.getD i da) (bs.getD i db) := by
  rw [List.getD_eq_getElem?_getD, List.getD_eq_getElem?_getD, List.getD_eq_getElem?_getD]
  rw [List.getElem?_zipWith]
  rw [List.getElem?_eq_getElem ha, List.getElem?_eq_getElem hb]
  simp

lemma getD_flatten_rect {α : Type} (m : List (List α)) (L : ℕ)
    (hrect : ∀ row ∈ m, row.length = L) (r c : ℕ) (d : α)
    (hr : r < m.length) (hc : c < L) :
    m.flatten.getD (r * L + c) d = (m.getD r []).getD c d := by
  induction m generalizing r with
  | nil => simp at hr
  | cons row rest ih =>
    have hrow : row.length = L := hrect row (by simp)
    cases r with
    | zero =>
      simp only [List.flatten_cons, Nat.zero_mul, Nat.zero_add]
      rw [List.getD_append _ _ _ _ (by omega)]
      simp [List.getD_cons_zero]
    | succ k =>
      simp only [List.flatten_cons]
      rw [List.getD_append_right _ _ _ _ (by rw [hrow]; calc
        L ≤ (k + 1) * L := Nat.le_mul_of_pos_left L (Nat.succ_pos k)
        _ ≤ (k + 1) * L + c := Nat.le_add_right _ _)]
      have harith : (k + 1) * L + c - row.length = k * L + c := by
        rw [hrow]; ring_nf; omega
      rw [harith]
      rw [ih (fun s hs => hrect s (by simp [hs])) k (by simpa using hr)]
      rfl

/-- Full characterization of the `argmaxGo` scan: either the carried best
index wins and dominates the rest weakly, or a position `k` of the remaining
list wins, strictly beating the carried best and every earlier remaining
element, and weakly dominating every remaining element. -/
lemma argmaxGo_spec (as : List ℚ) (bv : ℚ) (bi ci : ℕ) :
    (argmaxGo as bv bi ci = bi ∧ ∀ k, k < as.length → as.getD k 0 ≤ bv) ∨
    (∃ k, k < as.length ∧ argmaxGo as bv bi ci = ci + k ∧
      bv < as.getD k 0 ∧
      (∀ j, j < as.length → as.getD j 0 ≤ as.getD k 0) ∧
      (∀ j, j < k → as.getD j 0 < as.getD k 0)) := by
  induction as generalizing bv bi ci with
  | nil => exact Or.inl ⟨rfl, fun k hk => absurd hk (by simp)⟩
  | cons a as ih =>
    by_cases hba : bv < a
    · simp only [argmaxGo, if_pos hba]
      rcases ih a ci (ci + 1) with ⟨heq, hdom⟩ | ⟨k, hk, heq, hlt, hdom, hfirst⟩
      · refine Or.inr ⟨0, by simp, by omega, by simpa using hba, ?_, by omega⟩
        intro j hj
        cases j with
        | zero => simp
        | succ j' =>
          simpa using hdom j' (by simpa using hj)
      · refine Or.inr ⟨k + 1, by simpa using hk, by omega, ?_, ?_, ?_⟩
        · simpa using lt_trans hba hlt
        · intro j hj
          cases j with
          | zero => simpa using le_of_lt hlt
          | succ j' => simpa using hdom j' (by simpa using hj)
        · intro j hj
          cases j with
          | zero => simpa using hlt
          | succ j' => simpa using hfirst j' (by omega)
    · simp only [argmaxGo, if_neg hba]
      have hab : a ≤ bv := le_of_not_lt hba
      rcases ih bv bi (ci + 1) with ⟨heq, hdom⟩ | ⟨k, hk, heq, hlt, hdom, hfirst⟩
      · refine Or.inl ⟨heq, ?_⟩
        intro k hk
        cases k with
        | zero => simpa using hab
        | succ k' => simpa using hdom k' (by simpa using hk)
      · refine Or.inr ⟨k + 1, by simpa using hk, by omega, ?_, ?_, ?_⟩
        · simpa using hlt
        · intro j hj
          cases j with
          | zero => simpa using le_of_lt (lt_of_le_of_lt hab hlt)
          | succ j' => simpa using hdom j' (by simpa using hj)
        · intro j hj
          cases j with
          | zero => simpa using lt_of_le_of_lt hab hlt
          | succ j' => simpa using hfirst j' (by omega)

/-- Index `argmax` of a nonempty row is a valid index. -/
lemma argmax_lt_length (l : List ℚ) (h : l ≠ []) : argmax l < l.length := by
  cases l with
  | nil => exact absurd rfl h
  | cons a as =>
    simp only [argmax]
    rcases argmaxGo_spec as a 0 1 with ⟨heq, _⟩ | ⟨k, hk, heq, _⟩
    · simp [heq]
    · rw [heq]; simp; omega

/-- Every entry of the row is at most the entry at `argmax`. -/
lemma argmax_is_max (l : List ℚ) (j : ℕ) (hj : j < l.length) :
    l.getD j 0 ≤ l.getD (argmax l) 0 := by
  cases l with
  | nil => simp at hj
  | cons a as =>
    simp only [argmax]
    rcases argmaxGo_spec as a 0 1 with ⟨heq, hdom⟩ | ⟨k, hk, heq, hlt, hdom, _⟩
    · rw [heq]
      cases j with
      | zero => simp
      | succ j' => simpa using hdom j' (by simpa using hj)
    · rw [heq]
      have hk1 : (a :: as).getD (1 + k) 0 = as.getD k 0 := by
        rw [Nat.add_comm 1 k]; rfl
      rw [hk1]
      cases j with
      | zero => simpa using le_of_lt hlt
      | succ j' => simpa using hdom j' (by simpa using hj)

/-- Entries strictly before `argmax` are strictly below the maximum:
`argmax` is the first (lowest) index attaining the row maximum. -/
lemma argmax_first (l : List ℚ) (j : ℕ) (hj : j < argmax l) :
    l.getD j 0 < l.getD (argmax l) 0 := by
  cases l with
  | nil => simp [argmax] at hj
  | cons a as =>
    simp only [argmax] at hj ⊢
    rcases argmaxGo_spec as a 0 1 with ⟨heq, _⟩ | ⟨k, hk, heq, hlt, _, hfirst⟩
    · rw [heq] at hj; omega
    · rw [heq] at hj ⊢
      have hk1 : (a :: as).getD (1 + k) 0 = as.getD k 0 := by
        rw [Nat.add_comm 1 k]; rfl
      rw [hk1]
      cases j with
      | zero => simpa using hlt
      | succ j' =>
        have : j' < k := by omega
        simpa using hfirst j' this

/-- Selection by `lookupAll` fails exactly when some requested column is absent. -/
lemma lookupAll_eq_none_iff (cols : List (String × List ℚ)) (ns : List String) :
    lookupAll cols ns = none ↔ ∃ n ∈ ns, cols.lookup n = none := by
  induction ns with
  | nil => simp [lookupAll]
  | cons n ns ih =>
    cases hn : cols.lookup n with
    | none =>
      have hl : lookupAll cols (n :: ns) = none := by
        unfold lookupAll
        rw [hn]
      rw [hl]
      exact iff_of_true rfl ⟨n, by simp, hn⟩
    | some c =>
      cases hrest : lookupAll cols ns with
      | none =>
        have hl : lookupAll cols (n :: ns) = none := by
          unfold lookupAll
          rw [hn, hrest]
        rw [hl]
        refine iff_of_true rfl ?_
        rcases ih.mp hrest with ⟨m, hm, hnone⟩
        exact ⟨m, by simp [hm], hnone⟩
      | some rest =>
        have hl : lookupAll cols (n :: ns) = some (c :: rest) := by
          unfold lookupAll
          rw [hn, hrest]
        rw [hl]
        constructor
        · intro h
          exact absurd h (by simp)
        · rintro ⟨m, hm, hnone⟩
          rcases List.mem_cons.mp hm with rfl | hm'
          · rw [hn] at hnone
            exact absurd hnone (by simp)
          · have hcontra : lookupAll cols ns = none := ih.mpr ⟨m, hm', hnone⟩
            rw [hrest] at hcontra
            exact absurd hcontra (by simp)

/-- Lookup after `setVar`: the written variable reads back as written, every
other variable is untouched. -/
lemma lookup_setVar (vs : List (String × List (List ℚ))) (name n' : String)
    (val : List (List ℚ)) :
    (setVar vs name val).lookup n' = if n' = name then some val else vs.lookup n' := by
  induction vs with
  | nil =>
    by_cases h : n' = name
    · subst h
      simp [setVar, List.lookup]
    · have hb : (n' == name) = false := beq_eq_false_iff_ne.mpr h
      simp [setVar, List.lookup, hb, h]
  | cons p rest ih =>
    obtain ⟨n, v⟩ := p
    simp only [setVar]
    by_cases hn : n = name
    · subst hn
      rw [if_pos rfl]
      by_cases h' : n' = n
      · subst h'
        simp [List.lookup]
      · have hb : (n' == n) = false := beq_eq_false_iff_ne.mpr h'
        simp [List.lookup, hb, h']
    · rw [if_neg hn]
      by_cases h' : n' = n
      · subst h'
        have hnn : ¬ n' = name := hn
        simp [List.lookup, hnn]
      · have hb : (n' == n) = false := beq_eq_false_iff_ne.mpr h'
        simp [List.lookup, hb, ih]

/-- The default of `getD` is irrelevant on the `getLast?` of a nonempty
list. -/
lemma getLast?_getD_cons (a : ℚ) (l : List ℚ) (d d' : ℚ) :
    ((a :: l).getLast?).getD d = ((a :: l).getLast?).getD d' := by
  rw [List.getLast?_eq_getLast (a :: l) (by simp)]
  rfl

/-- Beyond the last abscissa the `np.interp` scan clamps to the last
ordinate. -/
lemma npInterpGo_all_lt (t : ℚ) (xs fs : List ℚ) (xprev fprev : ℚ)
    (hlen : xs.length = fs.length) (hgt : ∀ u ∈ xs, u < t) :
    npInterpGo t xprev fprev xs fs = fs.getLast?.getD fprev := by
  induction xs generalizing fs xprev fprev with
  | nil =>
    cases fs with
    | nil => rfl
    | cons f fs' => simp at hlen
  | cons x1 xs' ih =>
    cases fs with
    | nil => simp at hlen
    | cons f1 fs' =>
      have hx1 : x1 < t := hgt x1 (by simp)
      simp only [npInterpGo, if_neg (not_le.mpr hx1)]
      rw [ih fs' x1 f1 (by simpa using hlen) (fun u hu => hgt u (by simp [hu]))]
      cases fs' with
      | nil => rfl
      | cons f2 fs'' => exact getLast?_getD_cons f2 fs'' f1 fprev

/-! ### C1 -/

/-- C1: For every spatial point (row) `i`, the Vertical Interpolator's output
row depends only on that point's height-profile abscissa, variable ordinates,
and the target height levels; each target height is interpolated by
one-dimensional piecewise-linear interpolation, clamping to the first
ordinate at or below the lowest abscissa and to the last ordinate above the
highest abscissa; for abscissa `[500, 1500, 2500]` and ordinate `[10, 5, 0]`,
height `0` gives `10`, height `3000` gives `0`, and height `1000` gives
`7.5`. -/
theorem interpolate_rowwise_and_clamp :
    (∀ (x y : List (List ℚ)) (hl : List ℚ) (i : ℕ),
      i < x.length → i < y.length →
      (interpolate x y hl).getD i [] =
        hl.map (fun t => npInterp t (x.getD i []) (y.getD i []))) ∧
    (∀ (t x0 f0 : ℚ) (xs fs : List ℚ), t ≤ x0 → npInterp t (x0 :: xs) (f0 :: fs) = f0) ∧
    (∀ (t : ℚ) (xp fp : List ℚ), xp.length = fp.length → (∀ u ∈ xp, u < t) →
      npInterp t xp fp = fp.getLast?.getD 0) ∧
    npInterp 0 [500, 1500, 2500] [10, 5, 0] = 10 ∧
    npInterp 3000 [500, 1500, 2500] [10, 5, 0] = 0 ∧
    npInterp 1000 [500, 1500, 2500] [10, 5, 0] = 15 / 2 := by
  refine ⟨?_, ?_, ?_, ?_, ?_, ?_⟩
  · intro x y hl i hx hy
    exact getD_zipWith _ x y i [] [] [] hx hy
  · intro t x0 f0 xs fs ht
    simp [npInterp, if_pos ht]
  · intro t xp fp hlen hgt
    cases xp with
    | nil =>
      cases fp with
      | nil => rfl
      | cons f fs => simp at hlen
    | cons x0 xs =>
      cases fp with
      | nil => simp at hlen
      | cons f0 fs =>
        have hx0 : x0 < t := hgt x0 (by simp)
        simp only [npInterp, if_neg (not_le.mpr hx0)]
        rw [npInterpGo_all_lt t xs fs x0 f0 (by simpa using hlen)
          (fun u hu => hgt u (by simp [hu]))]
        cases fs with
        | nil => rfl
        | cons f1 fs' => exact getLast?_getD_cons f1 fs' f0 0
  · norm_num [npInterp, npInterpGo]
  · norm_num [npInterp, npInterpGo]
  · norm_num [npInterp, npInterpGo]

/-- Witness for C1: the theorem applied at a concrete profile. -/
theorem interpolate_rowwise_and_clamp_witness :
    (interpolate [[500, 1500, 2500]] [[10, 5, 0]] [0, 1000, 3000]).getD 0 [] =
      [0, 1000, 3000].map (fun t => npInterp t [500, 1500, 2500] [10, 5, 0]) ∧
    npInterp (-7) (500 :: [1500, 2500]) (10 :: [5, 0]) = 10 ∧
    npInterp 9999 [500, 1500, 2500] [10, 5, 0] = ([10, 5, 0] : List ℚ).getLast?.getD 0 :=
  ⟨interpolate_rowwise_and_clamp.1 [[500, 1500, 2500]] [[10, 5, 0]] [0, 1000, 3000] 0
      (by decide) (by decide),
   interpolate_rowwise_and_clamp.2.1 (-7) 500 10 [1500, 2500] [5, 0] (by decide),
   interpolate_rowwise_and_clamp.2.2.1 9999 [500, 1500, 2500] [10, 5, 0]
      (by decide) (by decide)⟩

/-! ### C2 -/

/-- When the interval is positive and divides `high - low`, the generated
height levels are `low + k * interval` for `k = 0, ..., n`. -/
lemma heightLevels_eq_map (low high interval : ℚ) (n : ℕ) (hpos : 0 < interval)
    (hdiv : high - low = n * interval) :
    heightLevels low high interval
      = (List.range (n + 1)).map (fun k : ℕ => low + (k : ℚ) * interval) := by
  unfold heightLevels arange
  rw [if_neg (not_le.mpr hpos)]
  have hq : (high + interval - low) / interval = ((n + 1 : ℕ) : ℚ) := by
    have h1 : high + interval - low = ((n + 1 : ℕ) : ℚ) * interval := by
      push_cast
      linarith [hdiv]
    rw [h1, mul_div_cancel_right₀ _ (ne_of_gt hpos)]
  rw [hq, Int.ceil_natCast, Int.toNat_natCast]

/-- C2 counterexample: for the configuration `{low=0, high=100, interval=30}`
the generated sequence is `[0, 30, 60, 90, 120]`: its last element overshoots
the upper bound and `high = 100` is not an element, so the sequence is not
the closed range `[low, high]` inclusive of both ends. -/
theorem heightLevels_overshoot :
    (heightLevels 0 100 30).getLast? = some 120 ∧ (100 : ℚ) ∉ heightLevels 0 100 30 := by
  have h : heightLevels 0 100 30 = [0, 30, 60, 90, 120] := by
    unfold heightLevels arange
    rw [if_neg (by norm_num)]
    have hc : ⌈((100 : ℚ) + 30 - 0) / 30⌉ = 5 := by
      rw [Int.ceil_eq_iff]
      constructor <;> norm_num
    rw [hc]
    simp only [show Int.toNat 5 = 5 from rfl, List.range_succ, List.range_zero,
      List.map_append, List.map_cons, List.map_nil, List.nil_append, List.cons_append]
    norm_num
  rw [h]
  refine ⟨rfl, ?_⟩
  norm_num

/-- C2 (amended): when the interval is positive and divides `high - low`
(as in every configuration the spec's closed-range reading is meaningful
for), the target height-level sequence is the closed range `[low, high]`
stepped by `interval`: it has `n + 1` elements where
`high - low = n * interval`, is strictly increasing, starts at `low` and
ends at `high`; in particular for `{low=0, high=3000, interval=250}` it has
13 elements, first `0`, last `3000`.  (Without the divisibility condition the
sequence can overshoot `high`.) -/
theorem heightLevels_closed_range (low high interval : ℚ) (n : ℕ)
    (hpos : 0 < interval) (hdiv : high - low = n * interval) :
    heightLevels low high interval
      = (List.range (n + 1)).map (fun k : ℕ => low + (k : ℚ) * interval) ∧
    (heightLevels low high interval).length = n + 1 ∧
    (heightLevels low high interval)[0]? = some low ∧
    (heightLevels low high interval)[n]? = some high ∧
    (heightLevels low high interval).Pairwise (· < ·) ∧
    (heightLevels 0 3000 250).length = 13 ∧
    (heightLevels 0 3000 250)[0]? = some 0 ∧
    (heightLevels 0 3000 250)[12]? = some 3000 := by
  have hmap := heightLevels_eq_map low high interval n hpos hdiv
  have hmap' : heightLevels 0 3000 250
      = (List.range 13).map (fun k : ℕ => (0 : ℚ) + (k : ℚ) * 250) :=
    heightLevels_eq_map 0 3000 250 12 (by norm_num) (by norm_num)
  refine ⟨hmap, ?_, ?_, ?_, ?_, ?_, ?_, ?_⟩
  · rw [hmap]
    simp
  · rw [hmap]
    simp [List.getElem?_map, List.getElem?_range]
  · rw [hmap]
    simp only [List.getElem?_map, List.getElem?_range, if_pos (Nat.lt_succ_self n)]
    have hval : low + (n : ℚ) * interval = high := by linarith [hdiv]
    simp [hval]
  · rw [hmap]
    refine List.Pairwise.map _ ?_ (List.pairwise_lt_range (n + 1))
    intro a b hab
    have hq : (a : ℚ) < b := by exact_mod_cast hab
    nlinarith
  · rw [hmap']
    simp
  · rw [hmap']
    simp [List.getElem?_map, List.getElem?_range]
  · rw [hmap']
    simp only [List.getElem?_map, List.getElem?_range]
    norm_num

/-- Witness for C2's amended theorem at `{low=0, high=3000, interval=250}`. -/
theorem heightLevels_closed_range_witness :
    (heightLevels 0 3000 250).length = 12 + 1 ∧
    (heightLevels 0 3000 250)[12]? = some 3000 :=
  ⟨(heightLevels_closed_range 0 3000 250 12 (by norm_num) (by norm_num)).2.1,
   (heightLevels_closed_range 0 3000 250 12 (by norm_num) (by norm_num)).2.2.2.1⟩

/-! ### C6 -/

/-- Reading `getD` through `map`, in bounds. -/
lemma getD_map {α β : Type} (l : List α) (f : α → β) (n : ℕ) (d : α) (d' : β)
    (hn : n < l.length) : (l.map f).getD n d' = f (l.getD n d) := by
  rw [List.getD_eq_getElem?_getD, List.getD_eq_getElem?_getD, List.getElem?_map,
    List.getElem?_eq_getElem hn]
  simp

/-- Length of the flattening of a rectangular list of lists. -/
lemma length_flatten_rect {α : Type} (m : List (List α)) (L : ℕ)
    (hrect : ∀ row ∈ m, row.length = L) : m.flatten.length = m.length * L := by
  induction m with
  | nil => simp
  | cons row rest ih =>
    have hrow : row.length = L := hrect row (by simp)
    have hrest := ih (fun s hs => hrect s (by simp [hs]))
    simp only [List.flatten_cons, List.length_append, List.length_cons, hrow, hrest]
    ring

/-- Index `i * L + j` of the flattening of a map whose blocks all have
length `L` lands at position `j` of block `i`. -/
lemma flatten_map_getElem? {α β : Type} (l : List α) (f : α → List β) (L : ℕ)
    (hlen : ∀ a ∈ l, (f a).length = L) (i j : ℕ) (hi : i < l.length) (hj : j < L)
    (d : α) : ((l.map f).flatten)[i * L + j]? = (f (l.getD i d))[j]? := by
  induction l generalizing i with
  | nil => simp at hi
  | cons a l ih =>
    have ha : (f a).length = L := hlen a (by simp)
    cases i with
    | zero =>
      simp only [List.map_cons, List.flatten_cons, Nat.zero_mul, Nat.zero_add]
      rw [List.getElem?_append_left (by omega)]
      rfl
    | succ k =>
      simp only [List.map_cons, List.flatten_cons]
      rw [List.getElem?_append_right (by rw [ha]; calc
        L ≤ (k + 1) * L := Nat.le_mul_of_pos_left L (Nat.succ_pos k)
        _ ≤ (k + 1) * L + j := Nat.le_add_right _ _)]
      have harith : (k + 1) * L + j - (f a).length = k * L + j := by
        rw [ha]
        ring_nf
        omega
      rw [harith, ih (fun s hs => hlen s (by simp [hs])) k (by simpa using hi)]
      rfl

/-- C6: The Profile Flattener produces exactly `varsP.length × levels`
columns, in variable-major, level-minor order: the column at position
`vi * L + li` is named `<variable>_<level>` and holds the row-major
flattening of that variable's 2-D slice at that level, with levels in the
vertical axis's native order. -/
theorem dfFlatten_column_layout (ds : NWPField) (varsP : List String) (vi li : ℕ)
    (hvi : vi < varsP.length) (hli : li < ds.levels.length) :
    (dfFlatten ds varsP).length = varsP.length * ds.levels.length ∧
    (dfFlatten ds varsP)[vi * ds.levels.length + li]? =
      some (mkColName (varsP.getD vi "") (ds.levels.getD li 0),
            (ds.slice (varsP.getD vi "") (ds.levels.getD li 0)).flatten) := by
  unfold dfFlatten
  constructor
  · rw [length_flatten_rect _ ds.levels.length (by
      intro row hrow
      rcases List.mem_map.mp hrow with ⟨v, _, rfl⟩
      exact List.length_map _ _)]
    rw [List.length_map]
  · rw [flatten_map_getElem? varsP _ ds.levels.length
      (by intro a _; exact List.length_map _ _) vi li hvi hli ""]
    rw [List.getElem?_map, List.getElem?_eq_getElem hli]
    have hgl : ds.levels.getD li 0 = ds.levels[li] := by
      rw [List.getD_eq_getElem?_getD, List.getElem?_eq_getElem hli]
      rfl
    rw [hgl]
    rfl


/-- Witness for C6 at a concrete field: column 3 (variable 1, level 1). -/
theorem dfFlatten_column_layout_witness :
    (dfFlatten exField ["t", "u"]).length = ["t", "u"].length * exField.levels.length ∧
    (dfFlatten exField ["t", "u"])[1 * exField.levels.length + 1]? =
      some (mkColName (["t", "u"].getD 1 "") (exField.levels.getD 1 0),
            (exField.slice (["t", "u"].getD 1 "") (exField.levels.getD 1 0)).flatten) :=
  dfFlatten_column_layout exField ["t", "u"] 1 1 (by decide) (by decide)

/-! ### Grid Reconstructor helper lemmas -/

lemma dataVars_dropGribCoords (ds : XDS) : (dropGribCoords ds).dataVars = ds.dataVars := rfl

lemma lookup_mutated_prob (data : XDS) (preds : List (List ℚ)) (j : ℕ) (hj : j < 4) :
    (gridMutatedData data preds).dataVars.lookup ("ML_" ++ classNames.getD j "")
      = some (probGrid (preds2 preds) data.ySize data.xSize j) := by
  interval_cases j <;>
    simp [gridMutatedData, lookup_setVar, classNames]

lemma lookup_mutated_cat (data : XDS) (preds : List (List ℚ)) (j : ℕ) (hj : j < 4) :
    (gridMutatedData data preds).dataVars.lookup ("ML_c" ++ classNames.getD j "")
      = some (catGrid (preds2 preds) data.ySize data.xSize j) := by
  interval_cases j <;>
    simp [gridMutatedData, lookup_setVar, classNames]

lemma probGrid_at (p2 : List (List ℚ)) (R C i r c : ℕ) (hr : r < R) (hc : c < C) :
    ((probGrid p2 R C i).getD r []).getD c 0 = (rowAt p2 C r c).getD i 0 := by
  unfold probGrid
  rw [getD_map_range _ R r [] hr, getD_map_range _ C c 0 hc]

lemma catGrid_at (p2 : List (List ℚ)) (R C i r c : ℕ) (hr : r < R) (hc : c < C) :
    ((catGrid p2 R C i).getD r []).getD c 0 =
      if (rowAt p2 C r c).getLast? = some (i : ℚ) then 1 else 0 := by
  unfold catGrid
  rw [getD_map_range _ R r [] hr, getD_map_range _ C c 0 hc]

lemma rowAt_preds2 (preds : List (List ℚ)) (C r c : ℕ) (h : r * C + c < preds.length) :
    rowAt (preds2 preds) C r c =
      (preds.getD (r * C + c) []) ++ [(argmax (preds.getD (r * C + c) []) : ℚ)] := by
  unfold rowAt preds2
  rw [getD_map preds _ _ [] [] h]

lemma index_lt_grid (r c R C : ℕ) (hr : r < R) (hc : c < C) : r * C + c < R * C := by
  calc r * C + c < r * C + C := by omega
    _ = (r + 1) * C := by ring
    _ ≤ R * C := Nat.mul_le_mul_right C hr

lemma gridPredictions_ok_elim (data : XDS) (preds : List (List ℚ)) (out : XDS)
    (hok : gridPredictions data preds = .ok out) :
    preds.length = data.ySize * data.xSize ∧
    out = dropGribCoords (gridMutatedData data preds) := by
  unfold gridPredictions at hok
  by_cases h : preds.length = data.ySize * data.xSize
  · rw [if_pos h] at hok
    exact ⟨h, (Except.ok.inj hok).symm⟩
  · rw [if_neg h] at hok
    exact absurd hok (by simp)

/-! ### C7 -/

/-- C7: Calling the Grid Reconstructor with a prediction table whose row
count does not equal `rows × columns` of the grid fails with the shape
error, synchronously at that call, before any assignment into the input
dataset. -/
theorem gridPredictions_shape_mismatch (data : XDS) (preds : List (List ℚ))
    (hmis : preds.length ≠ data.ySize * data.xSize) :
    gridPredictions data preds = .error .shapeError ∧
    gridPredictionsDataAfter data preds = data := by
  unfold gridPredictions gridPredictionsDataAfter
  rw [if_neg hmis, if_neg hmis]
  exact ⟨rfl, rfl⟩

/-- Witness for C7: 99 prediction rows against a `(10, 10)` grid. -/
theorem gridPredictions_shape_mismatch_witness :
    (List.replicate 99 ([1, 0, 0, 0] : List ℚ)).length ≠ (10 : ℕ) * 10 ∧
    gridPredictions ⟨10, 10, [], []⟩ (List.replicate 99 [1, 0, 0, 0]) =
      .error .shapeError :=
  ⟨by decide,
   (gridPredictions_shape_mismatch ⟨10, 10, [], []⟩ (List.replicate 99 [1, 0, 0, 0])
      (by decide)).1⟩

/-! ### C9 -/

/-- C9 counterexample: the Grid Reconstructor mutates its input in place.
On a dataset with no variables and a matching 1 × 1 prediction table, the
`data` argument is no longer equal to its original value after the call (it
now holds the eight ML fields). -/
theorem gridReconstructor_mutates :
    gridPredictionsDataAfter ⟨1, 1, [], []⟩ [[1, 0, 0, 0]] ≠ (⟨1, 1, [], []⟩ : XDS) := by
  intro h
  have hl := congrArg (fun ds => ds.dataVars.length) h
  simp [gridPredictionsDataAfter, gridMutatedData, setVar] at hl

/-- C9 (amended): the Profile Flattener and the Vertical Interpolator do not
mutate their inputs (no statement in them stores into an argument), but the
Grid Reconstructor does mutate its input dataset in place on a successful
call: after the call the input necessarily contains the written ML fields
(e.g. `ML_rain` and `ML_crain`), so any input lacking them was changed. -/
theorem stage_mutation_profile :
    (∀ (ds : NWPField) (varsP : List String), (dfFlattenRun ds varsP).2 = ds) ∧
    (∀ (data surface : FlatTable) (plevels : List ℤ) (low high interval : ℚ),
      (convertAndInterpolateRun data surface plevels low high interval).2 =
        (data, surface)) ∧
    (∀ (data : XDS) (preds : List (List ℚ)),
      preds.length = data.ySize * data.xSize →
      ((gridPredictionsDataAfter data preds).dataVars.lookup "ML_rain").isSome ∧
      ((gridPredictionsDataAfter data preds).dataVars.lookup "ML_crain").isSome) := by
  refine ⟨fun _ _ => rfl, fun _ _ _ _ _ _ => rfl, ?_⟩
  intro data preds h
  unfold gridPredictionsDataAfter
  rw [if_pos h]
  constructor
  · have hp := lookup_mutated_prob data preds 0 (by norm_num)
    rw [show ("ML_" ++ classNames.getD 0 "") = "ML_rain" from rfl] at hp
    rw [hp]
    rfl
  · have hc := lookup_mutated_cat data preds 0 (by norm_num)
    rw [show ("ML_c" ++ classNames.getD 0 "") = "ML_crain" from rfl] at hc
    rw [hc]
    rfl

/-- Witness for C9's amended theorem at concrete inputs. -/
theorem stage_mutation_profile_witness :
    (dfFlattenRun exField ["t"]).2 = exField ∧
    ((gridPredictionsDataAfter ⟨1, 1, [], []⟩ [[1, 0, 0, 0]]).dataVars.lookup
        "ML_rain").isSome :=
  ⟨stage_mutation_profile.1 exField ["t"],
   (stage_mutation_profile.2.2 ⟨1, 1, [], []⟩ [[1, 0, 0, 0]] (by decide)).1⟩

/-! ### C4 -/


/-- C4: the Grid Reconstructor's row-major un-flattening is the exact
inverse of the Profile Flattener's row-major flattening.  The flattener
stores the slice `m` as the column `m.flatten`, the flattened column places
position `(r, c)` at flat index `r * C + c`, and feeding a prediction table
whose row at flat index `n` carries the flattened value back through
`grid_predictions` places that value at grid position `(r, c)` of every
probability field. -/
theorem flatten_unflatten_roundtrip (R C : ℕ) (m : List (List ℚ)) (ds : NWPField)
    (v : String) (p : ℤ) (hlev : ds.levels = [p]) (hsl : ds.slice v p = m)
    (hR : m.length = R) (hrect : ∀ row ∈ m, row.length = C)
    (data : XDS) (hy : data.ySize = R) (hx : data.xSize = C)
    (out : XDS)
    (hok : gridPredictions data (m.flatten.map (fun a => [a, a, a, a])) = .ok out)
    (r c : ℕ) (hr : r < R) (hc : c < C) (j : ℕ) (hj : j < 4) :
    dfFlatten ds [v] = [(mkColName v p, m.flatten)] ∧
    m.flatten.getD (r * C + c) 0 = (m.getD r []).getD c 0 ∧
    varAt out ("ML_" ++ classNames.getD j "") r c = m.flatten.getD (r * C + c) 0 := by
  obtain ⟨hlen, hout⟩ := gridPredictions_ok_elim data _ out hok
  have hflatlen : m.flatten.length = R * C := by
    rw [length_flatten_rect m C hrect, hR]
  have hidx : r * C + c < m.flatten.length := by
    rw [hflatlen]
    exact index_lt_grid r c R C hr hc
  refine ⟨?_, ?_, ?_⟩
  · simp [dfFlatten, hlev, hsl]
  · exact getD_flatten_rect m C hrect r c 0 (hR ▸ hr) hc
  · subst hout
    unfold varAt
    rw [dataVars_dropGribCoords, lookup_mutated_prob data _ j hj]
    simp only [Option.getD_some]
    rw [probGrid_at _ _ _ j r c (hy ▸ hr) (hx ▸ hc)]
    rw [hx, rowAt_preds2 _ C r c (by rw [List.length_map]; exact hidx)]
    rw [getD_map m.flatten _ _ 0 [] hidx]
    rw [List.getD_append _ _ _ _ (by simp; omega)]
    interval_cases j <;> rfl

/-- Witness for C4 at a 1 × 1 grid. -/
theorem flatten_unflatten_roundtrip_witness :
    dfFlatten exField1 ["t"] = [(mkColName "t" 925, ([[5]] : List (List ℚ)).flatten)] ∧
    ([[5]] : List (List ℚ)).flatten.getD (0 * 1 + 0) 0 =
      (([[5]] : List (List ℚ)).getD 0 []).getD 0 0 ∧
    varAt (dropGribCoords (gridMutatedData ⟨1, 1, [], []⟩
        (([[5]] : List (List ℚ)).flatten.map (fun a => [a, a, a, a]))))
      ("ML_" ++ classNames.getD 2 "") 0 0
      = ([[5]] : List (List ℚ)).flatten.getD (0 * 1 + 0) 0 :=
  flatten_unflatten_roundtrip 1 1 [[5]] exField1 "t" 925 rfl rfl rfl (by decide)
    ⟨1, 1, [], []⟩ rfl rfl _ rfl 0 0 (by decide) (by decide) 2 (by decide)

/-! ### C5 -/

/-- C5: the Grid Reconstructor's derived categorical output selects the
first (lowest) class index attaining the row maximum — entries before
`argmax` are strictly smaller and every entry is at most the `argmax`
entry — with `argmax [0.5, 0.5, 0, 0] = 0`; and the per-class indicator
field holds `1` exactly at the points whose row arg-max is that class, `0`
elsewhere. -/
theorem argmax_tiebreak_and_indicator :
    (∀ (l : List ℚ), l ≠ [] → argmax l < l.length) ∧
    (∀ (l : List ℚ) (j : ℕ), j < l.length → l.getD j 0 ≤ l.getD (argmax l) 0) ∧
    (∀ (l : List ℚ) (j : ℕ), j < argmax l → l.getD j 0 < l.getD (argmax l) 0) ∧
    argmax [1 / 2, 1 / 2, 0, 0] = 0 ∧
    (∀ (data : XDS) (preds : List (List ℚ)) (out : XDS) (r c j : ℕ),
      gridPredictions data preds = .ok out →
      r < data.ySize → c < data.xSize → j < 4 →
      varAt out ("ML_c" ++ classNames.getD j "") r c =
        if argmax (preds.getD (r * data.xSize + c) []) = j then 1 else 0) := by
  refine ⟨argmax_lt_length, argmax_is_max, argmax_first, ?_, ?_⟩
  · norm_num [argmax, argmaxGo]
  · intro data preds out r c j hok hr hc hj
    obtain ⟨hlen, hout⟩ := gridPredictions_ok_elim data preds out hok
    have hidx : r * data.xSize + c < preds.length := by
      rw [hlen]
      exact index_lt_grid r c _ _ hr hc
    subst hout
    unfold varAt
    rw [dataVars_dropGribCoords, lookup_mutated_cat data preds j hj]
    simp only [Option.getD_some]
    rw [catGrid_at _ _ _ j r c hr hc]
    rw [rowAt_preds2 preds _ r c hidx]
    rw [List.getLast?_concat]
    by_cases hargmax : argmax (preds.getD (r * data.xSize + c) []) = j
    · rw [if_pos hargmax]
      rw [if_pos (by rw [hargmax])]
    · rw [if_neg hargmax]
      rw [if_neg (by
        intro hcast
        exact hargmax (Nat.cast_inj.mp (Option.some.inj hcast)))]

/-- Witness for C5: the indicator at the tied row `[0.5, 0.5, 0, 0]`. -/
theorem argmax_tiebreak_and_indicator_witness :
    varAt (dropGribCoords (gridMutatedData ⟨1, 1, [], []⟩ [[1 / 2, 1 / 2, 0, 0]]))
      ("ML_c" ++ classNames.getD 0 "") 0 0
      = if argmax (([[1 / 2, 1 / 2, 0, 0]] : List (List ℚ)).getD (0 * 1 + 0) []) = 0
        then 1 else 0 :=
  argmax_tiebreak_and_indicator.2.2.2.2 ⟨1, 1, [], []⟩ [[1 / 2, 1 / 2, 0, 0]] _ 0 0 0
    rfl (by decide) (by decide) (by decide)

/-! ### C10 -/

/-- C10: on a 4-class prediction table of the configured grid size, the four
categorical fields partition the grid: at every spatial point exactly one of
`ML_crain, ML_csnow, ML_cicep, ML_cfrzr` is `1` and the other three are
`0`. -/
theorem categorical_fields_partition (data : XDS) (preds : List (List ℚ)) (out : XDS)
    (hok : gridPredictions data preds = .ok out)
    (hrect : ∀ row ∈ preds, row.length = 4)
    (r c : ℕ) (hr : r < data.ySize) (hc : c < data.xSize) :
    ∃ i, i < 4 ∧ ∀ j, j < 4 →
      varAt out ("ML_c" ++ classNames.getD j "") r c = if j = i then 1 else 0 := by
  obtain ⟨hlen, hout⟩ := gridPredictions_ok_elim data preds out hok
  have hidx : r * data.xSize + c < preds.length := by
    rw [hlen]
    exact index_lt_grid r c _ _ hr hc
  have hrow : preds.getD (r * data.xSize + c) [] ∈ preds := by
    rw [List.getD_eq_getElem?_getD, List.getElem?_eq_getElem hidx]
    exact List.getElem_mem hidx
  have hrowlen : (preds.getD (r * data.xSize + c) []).length = 4 := hrect _ hrow
  have hne : preds.getD (r * data.xSize + c) [] ≠ [] := by
    intro hnil
    rw [hnil] at hrowlen
    simp at hrowlen
  refine ⟨argmax (preds.getD (r * data.xSize + c) []), ?_, ?_⟩
  · have := argmax_lt_length _ hne
    omega
  · intro j hj
    subst hout
    unfold varAt
    rw [dataVars_dropGribCoords, lookup_mutated_cat data preds j hj]
    simp only [Option.getD_some]
    rw [catGrid_at _ _ _ j r c hr hc]
    rw [rowAt_preds2 preds _ r c hidx]
    rw [List.getLast?_concat]
    by_cases heq : j = argmax (preds.getD (r * data.xSize + c) [])
    · rw [if_pos heq, if_pos (by rw [heq])]
    · rw [if_neg heq]
      rw [if_neg (by
        intro hcast
        exact heq (Nat.cast_inj.mp (Option.some.inj hcast)).symm)]

/-- Witness for C10 at a concrete prediction row. -/
theorem categorical_fields_partition_witness :
    ∃ i, i < 4 ∧ ∀ j, j < 4 →
      varAt (dropGribCoords (gridMutatedData ⟨1, 1, [], []⟩ [[0, 3, 3, 1]]))
        ("ML_c" ++ classNames.getD j "") 0 0 = if j = i then 1 else 0 :=
  categorical_fields_partition ⟨1, 1, [], []⟩ [[0, 3, 3, 1]] _ rfl (by decide)
    0 0 (by decide) (by decide)

/-! ### Vertical Interpolator helper lemmas -/

lemma getD_range (n i d : ℕ) (h : i < n) : (List.range n).getD i d = i := by
  rw [List.getD_eq_getElem?_getD]
  simp [List.getElem?_range, h]

lemma getMatrix_some_length (data : FlatTable) (names : List String)
    (hd : List (List ℚ)) (h : getMatrix data names = some hd) :
    hd.length = data.nrows := by
  unfold getMatrix at h
  cases hla : lookupAll data.cols names with
  | none =>
    rw [hla] at h
    exact absurd h (by simp)
  | some sel =>
    rw [hla] at h
    rw [← Option.some.inj h]
    simp

lemma setSurface_length (rows : List (List ℚ)) (svals : List ℚ) :
    (setSurface rows svals).length = rows.length := by
  unfold setSurface
  rw [List.length_zipWith, List.length_range, min_self]

lemma setSurface_getD (rows : List (List ℚ)) (svals : List ℚ) (i : ℕ)
    (hi : i < rows.length) :
    (setSurface rows svals).getD i [] =
      match rows.getD i [] with
      | [] => []
      | _ :: t => svals.getD i 0 :: t := by
  unfold setSurface
  rw [getD_zipWith _ (List.range rows.length) rows i 0 [] [] (by simpa using hi) hi]
  rw [getD_range rows.length i 0 hi]

lemma interpolate_length (x y : List (List ℚ)) (hl : List ℚ) :
    (interpolate x y hl).length = min x.length y.length :=
  List.length_zipWith _ x y

/-- A row of one variable's interpolated-and-overridden block: the surface
value followed by the interpolated values at the remaining height levels. -/
lemma block_getD (heightData pld : List (List ℚ)) (svals : List ℚ)
    (t0 : ℚ) (hl' : List ℚ) (n i : ℕ)
    (hhd : heightData.length = n) (hpld : pld.length = n) (hi : i < n) :
    (setSurface (interpolate heightData pld (t0 :: hl')) svals).getD i [] =
      svals.getD i 0 ::
        hl'.map (fun t => npInterp t (heightData.getD i []) (pld.getD i [])) := by
  have hlen : (interpolate heightData pld (t0 :: hl')).length = n := by
    rw [interpolate_length, hhd, hpld, min_self]
  rw [setSurface_getD _ _ i (by rw [hlen]; exact hi)]
  have hrow : (interpolate heightData pld (t0 :: hl')).getD i [] =
      (t0 :: hl').map (fun t => npInterp t (heightData.getD i []) (pld.getD i [])) :=
    getD_zipWith _ heightData pld i [] [] [] (by rw [hhd]; exact hi) (by rw [hpld]; exact hi)
  rw [hrow]
  rfl

lemma interpBlock_some_elim (heightData : List (List ℚ)) (data surface : FlatTable)
    (plevels : List ℤ) (hl : List ℚ) (v sv : String) (b : List (List ℚ))
    (h : interpBlock heightData data surface plevels hl v sv = some b) :
    ∃ pld svals, getMatrix data (profileCols plevels v) = some pld ∧
      surface.cols.lookup sv = some svals ∧
      b = setSurface (interpolate heightData pld hl) svals := by
  unfold interpBlock at h
  cases hm : getMatrix data (profileCols plevels v) with
  | none =>
    rw [hm] at h
    exact absurd h (by simp)
  | some pld =>
    rw [hm] at h
    cases hs : surface.cols.lookup sv with
    | none =>
      rw [hs] at h
      exact absurd h (by simp)
    | some svals =>
      rw [hs] at h
      exact ⟨pld, svals, rfl, rfl, (Option.some.inj h).symm⟩

lemma convertAndInterpolate_ok_elim (data surface : FlatTable) (plevels : List ℤ)
    (low high interval : ℚ) (out : List (List ℚ))
    (hok : convertAndInterpolate data surface plevels low high interval = .ok out) :
    ∃ heightData b1 b2 b3 b4,
      getMatrix data (profileCols plevels "hgt_above_sfc") = some heightData ∧
      interpBlock heightData data surface plevels (heightLevels low high interval)
        "t" "t2m" = some b1 ∧
      interpBlock heightData data surface plevels (heightLevels low high interval)
        "dpt" "d2m" = some b2 ∧
      interpBlock heightData data surface plevels (heightLevels low high interval)
        "u" "u10" = some b3 ∧
      interpBlock heightData data surface plevels (heightLevels low high interval)
        "v" "v10" = some b4 ∧
      out = ((b1.zipWith (· ++ ·) b2).zipWith (· ++ ·) b3).zipWith (· ++ ·) b4 := by
  simp only [convertAndInterpolate] at hok
  cases hm : getMatrix data (profileCols plevels "hgt_above_sfc") with
  | none =>
    rw [hm] at hok
    exact absurd hok (by simp)
  | some heightData =>
    simp only [hm] at hok
    cases h1 : interpBlock heightData data surface plevels
        (heightLevels low high interval) "t" "t2m" with
    | none =>
      simp only [h1] at hok
      exact absurd hok (by simp)
    | some b1 =>
      simp only [h1] at hok
      cases h2 : interpBlock heightData data surface plevels
          (heightLevels low high interval) "dpt" "d2m" with
      | none =>
        simp only [h2] at hok
        exact absurd hok (by simp)
      | some b2 =>
        simp only [h2] at hok
        cases h3 : interpBlock heightData data surface plevels
            (heightLevels low high interval) "u" "u10" with
        | none =>
          simp only [h3] at hok
          exact absurd hok (by simp)
        | some b3 =>
          simp only [h3] at hok
          cases h4 : interpBlock heightData data surface plevels
              (heightLevels low high interval) "v" "v10" with
          | none =>
            simp only [h4] at hok
            exact absurd hok (by simp)
          | some b4 =>
            simp only [h4] at hok
            exact ⟨heightData, b1, b2, b3, b4, rfl, h1, h2, h3, h4, (Except.ok.inj hok).symm⟩

/-- Position `k * H` of four concatenated blocks of width `H` is position 0
of block `k`. -/
lemma getD_append_block (r1 r2 r3 r4 : List ℚ) (H : ℕ) (h1 : r1.length = H)
    (h2 : r2.length = H) (h3 : r3.length = H) (h4 : r4.length = H) (hH : 1 ≤ H)
    (k : ℕ) (hk : k < 4) :
    (((r1 ++ r2) ++ r3) ++ r4).getD (k * H) 0 = ([r1, r2, r3, r4].getD k []).getD 0 0 := by
  interval_cases k
  · rw [Nat.zero_mul]
    rw [List.getD_append _ _ _ _ (by simp [List.length_append, h1, h2, h3]; omega)]
    rw [List.getD_append _ _ _ _ (by simp [List.length_append, h1, h2]; omega)]
    rw [List.getD_append _ _ _ _ (by omega)]
    rfl
  · rw [Nat.one_mul]
    rw [List.getD_append _ _ _ _ (by simp [List.length_append, h1, h2, h3]; omega)]
    rw [List.getD_append _ _ _ _ (by simp [List.length_append, h1, h2]; omega)]
    rw [List.getD_append_right _ _ _ _ (by omega)]
    rw [h1, Nat.sub_self]
    rfl
  · rw [List.getD_append _ _ _ _ (by simp [List.length_append, h1, h2, h3]; omega)]
    rw [List.getD_append_right _ _ _ _ (by simp [List.length_append, h1, h2]; omega)]
    have e : 2 * H - (r1 ++ r2).length = 0 := by
      simp [List.length_append, h1, h2]
      omega
    rw [e]
    rfl
  · rw [List.getD_append_right _ _ _ _ (by
      simp [List.length_append, h1, h2, h3]
      omega)]
    have e : 3 * H - ((r1 ++ r2) ++ r3).length = 0 := by
      simp [List.length_append, h1, h2, h3]
      omega
    rw [e]
    rfl

/-! ### C3 -/

/-- C3: after interpolation, for each of the four core variables the value at
the lowest target height level (position `k * H` of the concatenated output
row, `H` the number of height levels) equals the point's corresponding
surface observation (`t2m`, `d2m`, `u10`, `v10`), regardless of what the
interpolation produced there. -/
theorem surface_override (data surface : FlatTable) (plevels : List ℤ)
    (low high interval : ℚ) (out : List (List ℚ))
    (hok : convertAndInterpolate data surface plevels low high interval = .ok out)
    (hH : heightLevels low high interval ≠ [])
    (i : ℕ) (hi : i < data.nrows) (k : ℕ) (hk : k < 4) :
    (out.getD i []).getD (k * (heightLevels low high interval).length) 0
      = ((surface.cols.lookup ((surfacePairs.getD k ("", "")).2)).getD []).getD i 0 := by
  obtain ⟨hd, b1, b2, b3, b4, hm, h1, h2, h3, h4, hout⟩ :=
    convertAndInterpolate_ok_elim data surface plevels low high interval out hok
  obtain ⟨t0, hl', hcons⟩ := List.exists_cons_of_ne_nil hH
  obtain ⟨pld1, sv1, hm1, hs1, hb1⟩ := interpBlock_some_elim _ _ _ _ _ _ _ _ h1
  obtain ⟨pld2, sv2, hm2, hs2, hb2⟩ := interpBlock_some_elim _ _ _ _ _ _ _ _ h2
  obtain ⟨pld3, sv3, hm3, hs3, hb3⟩ := interpBlock_some_elim _ _ _ _ _ _ _ _ h3
  obtain ⟨pld4, sv4, hm4, hs4, hb4⟩ := interpBlock_some_elim _ _ _ _ _ _ _ _ h4
  have hhd : hd.length = data.nrows := getMatrix_some_length _ _ _ hm
  have hp1 : pld1.length = data.nrows := getMatrix_some_length _ _ _ hm1
  have hp2 : pld2.length = data.nrows := getMatrix_some_length _ _ _ hm2
  have hp3 : pld3.length = data.nrows := getMatrix_some_length _ _ _ hm3
  have hp4 : pld4.length = data.nrows := getMatrix_some_length _ _ _ hm4
  have hlen1 : b1.length = data.nrows := by
    rw [hb1, setSurface_length, interpolate_length, hhd, hp1, min_self]
  have hlen2 : b2.length = data.nrows := by
    rw [hb2, setSurface_length, interpolate_length, hhd, hp2, min_self]
  have hlen3 : b3.length = data.nrows := by
    rw [hb3, setSurface_length, interpolate_length, hhd, hp3, min_self]
  have hlen4 : b4.length = data.nrows := by
    rw [hb4, setSurface_length, interpolate_length, hhd, hp4, min_self]
  have hr1 : b1.getD i [] = sv1.getD i 0 ::
      hl'.map (fun t => npInterp t (hd.getD i []) (pld1.getD i [])) := by
    rw [hb1, hcons]
    exact block_getD hd pld1 sv1 t0 hl' data.nrows i hhd hp1 hi
  have hr2 : b2.getD i [] = sv2.getD i 0 ::
      hl'.map (fun t => npInterp t (hd.getD i []) (pld2.getD i [])) := by
    rw [hb2, hcons]
    exact block_getD hd pld2 sv2 t0 hl' data.nrows i hhd hp2 hi
  have hr3 : b3.getD i [] = sv3.getD i 0 ::
      hl'.map (fun t => npInterp t (hd.getD i []) (pld3.getD i [])) := by
    rw [hb3, hcons]
    exact block_getD hd pld3 sv3 t0 hl' data.nrows i hhd hp3 hi
  have hr4 : b4.getD i [] = sv4.getD i 0 ::
      hl'.map (fun t => npInterp t (hd.getD i []) (pld4.getD i [])) := by
    rw [hb4, hcons]
    exact block_getD hd pld4 sv4 t0 hl' data.nrows i hhd hp4 hi
  have hrow : out.getD i [] =
      (((b1.getD i []) ++ (b2.getD i [])) ++ (b3.getD i [])) ++ (b4.getD i []) := by
    rw [hout]
    rw [getD_zipWith _ _ b4 i [] [] []
      (by rw [List.length_zipWith, List.length_zipWith, hlen1, hlen2, hlen3]; omega)
      (by rw [hlen4]; exact hi)]
    rw [getD_zipWith _ _ b3 i [] [] []
      (by rw [List.length_zipWith, hlen1, hlen2]; omega)
      (by rw [hlen3]; exact hi)]
    rw [getD_zipWith _ b1 b2 i [] [] []
      (by rw [hlen1]; exact hi) (by rw [hlen2]; exact hi)]
  have hH1 : 1 ≤ (heightLevels low high interval).length := by
    rw [hcons]
    simp
  have hw1 : (b1.getD i []).length = (heightLevels low high interval).length := by
    rw [hr1, hcons]
    simp
  have hw2 : (b2.getD i []).length = (heightLevels low high interval).length := by
    rw [hr2, hcons]
    simp
  have hw3 : (b3.getD i []).length = (heightLevels low high interval).length := by
    rw [hr3, hcons]
    simp
  have hw4 : (b4.getD i []).length = (heightLevels low high interval).length := by
    rw [hr4, hcons]
    simp
  rw [hrow, getD_append_block _ _ _ _ _ hw1 hw2 hw3 hw4 hH1 k hk]
  interval_cases k
  · rw [show ([b1.getD i [], b2.getD i [], b3.getD i [], b4.getD i []].getD 0 [])
        = b1.getD i [] from rfl]
    rw [hr1, show (surfacePairs.getD 0 ("", "")).2 = "t2m" from rfl, hs1]
    rfl
  · rw [show ([b1.getD i [], b2.getD i [], b3.getD i [], b4.getD i []].getD 1 [])
        = b2.getD i [] from rfl]
    rw [hr2, show (surfacePairs.getD 1 ("", "")).2 = "d2m" from rfl, hs2]
    rfl
  · rw [show ([b1.getD i [], b2.getD i [], b3.getD i [], b4.getD i []].getD 2 [])
        = b3.getD i [] from rfl]
    rw [hr3, show (surfacePairs.getD 2 ("", "")).2 = "u10" from rfl, hs3]
    rfl
  · rw [show ([b1.getD i [], b2.getD i [], b3.getD i [], b4.getD i []].getD 3 [])
        = b4.getD i [] from rfl]
    rw [hr4, show (surfacePairs.getD 3 ("", "")).2 = "v10" from rfl, hs4]
    rfl



/-- The height levels of the witness configuration `{0, 1000, 500}`. -/
lemma exHeights : heightLevels 0 1000 500 = [0, 500, 1000] := by
  rw [heightLevels_eq_map 0 1000 500 2 (by norm_num) (by norm_num)]
  simp only [List.range_succ, List.range_zero, List.map_append, List.map_cons,
    List.map_nil, List.nil_append, List.cons_append]
  norm_num

/-- Concrete evaluation of the Vertical Interpolator on `exProfile`. -/
lemma exProfile_eval :
    convertAndInterpolate exProfile exSurface [500, 1000] 0 1000 500 =
      .ok [[1, 7, 7, 2, 6, 6, 3, 5, 5, 4, 4, 4]] := by
  simp only [convertAndInterpolate, exHeights]
  rfl

/-- Witness for C3 on `exProfile`: the `u`-block of the output row starts
with the `u10` surface value. -/
theorem surface_override_witness :
    heightLevels 0 1000 500 ≠ [] ∧
    (([[1, 7, 7, 2, 6, 6, 3, 5, 5, 4, 4, 4]] : List (List ℚ)).getD 0 []).getD
        (2 * (heightLevels 0 1000 500).length) 0
      = ((exSurface.cols.lookup ((surfacePairs.getD 2 ("", "")).2)).getD []).getD 0 0 := by
  have hne : heightLevels 0 1000 500 ≠ [] := by
    rw [exHeights]
    simp
  exact ⟨hne, surface_override exProfile exSurface [500, 1000] 0 1000 500
    [[1, 7, 7, 2, 6, 6, 3, 5, 5, 4, 4, 4]] exProfile_eval hne 0 (by decide) 2 (by decide)⟩

/-! ### C8 -/

/-- The five profile variables whose per-level columns
`convert_and_interpolate` selects (src/ptype/inference.py line 177). -/
def profileVars : List String := ["t", "dpt", "u", "v", "hgt_above_sfc"]

lemma getMatrix_eq_none_iff (data : FlatTable) (names : List String) :
    getMatrix data names = none ↔ ∃ nm ∈ names, data.cols.lookup nm = none := by
  unfold getMatrix
  cases hla : lookupAll data.cols names with
  | none =>
    exact iff_of_true rfl ((lookupAll_eq_none_iff _ _).mp hla)
  | some sel =>
    refine iff_of_false (by simp) ?_
    intro hex
    have hc := (lookupAll_eq_none_iff data.cols names).mpr hex
    rw [hla] at hc
    exact absurd hc (by simp)

lemma interpBlock_eq_none_iff (heightData : List (List ℚ)) (data surface : FlatTable)
    (plevels : List ℤ) (hl : List ℚ) (v sv : String) :
    interpBlock heightData data surface plevels hl v sv = none ↔
      getMatrix data (profileCols plevels v) = none ∨
      surface.cols.lookup sv = none := by
  unfold interpBlock
  cases hm : getMatrix data (profileCols plevels v) with
  | none =>
    cases hs : surface.cols.lookup sv <;> simp
  | some pld =>
    cases hs : surface.cols.lookup sv <;> simp

/-- Function `convert_and_interpolate` returns the dimension-mismatch error exactly
when one of its five column selections or four surface lookups fails. -/
lemma convertAndInterpolate_error_char (data surface : FlatTable) (plevels : List ℤ)
    (low high interval : ℚ) :
    (convertAndInterpolate data surface plevels low high interval
        = .error .dimensionMismatchError) ↔
      (getMatrix data (profileCols plevels "hgt_above_sfc") = none ∨
       (getMatrix data (profileCols plevels "t") = none ∨
          surface.cols.lookup "t2m" = none) ∨
       (getMatrix data (profileCols plevels "dpt") = none ∨
          surface.cols.lookup "d2m" = none) ∨
       (getMatrix data (profileCols plevels "u") = none ∨
          surface.cols.lookup "u10" = none) ∨
       (getMatrix data (profileCols plevels "v") = none ∨
          surface.cols.lookup "v10" = none)) := by
  constructor
  · intro hres
    simp only [convertAndInterpolate] at hres
    cases hm : getMatrix data (profileCols plevels "hgt_above_sfc") with
    | none => exact Or.inl rfl
    | some hd =>
      simp only [hm] at hres
      cases h1 : interpBlock hd data surface plevels
          (heightLevels low high interval) "t" "t2m" with
      | none =>
        exact Or.inr (Or.inl ((interpBlock_eq_none_iff hd data surface plevels _
          "t" "t2m").mp h1))
      | some b1 =>
        simp only [h1] at hres
        cases h2 : interpBlock hd data surface plevels
            (heightLevels low high interval) "dpt" "d2m" with
        | none =>
          exact Or.inr (Or.inr (Or.inl ((interpBlock_eq_none_iff hd data surface
            plevels _ "dpt" "d2m").mp h2)))
        | some b2 =>
          simp only [h2] at hres
          cases h3 : interpBlock hd data surface plevels
              (heightLevels low high interval) "u" "u10" with
          | none =>
            exact Or.inr (Or.inr (Or.inr (Or.inl ((interpBlock_eq_none_iff hd data
              surface plevels _ "u" "u10").mp h3))))
          | some b3 =>
            simp only [h3] at hres
            cases h4 : interpBlock hd data surface plevels
                (heightLevels low high interval) "v" "v10" with
            | none =>
              exact Or.inr (Or.inr (Or.inr (Or.inr ((interpBlock_eq_none_iff hd data
                surface plevels _ "v" "v10").mp h4))))
            | some b4 =>
              simp only [h4] at hres
              exact absurd hres (by simp)
  · intro hmiss
    simp only [convertAndInterpolate]
    cases hm : getMatrix data (profileCols plevels "hgt_above_sfc") with
    | none => rfl
    | some hd =>
      rcases hmiss with h | h | h | h | h
      · rw [hm] at h
        exact absurd h (by simp)
      · have h1 : interpBlock hd data surface plevels
            (heightLevels low high interval) "t" "t2m" = none :=
          (interpBlock_eq_none_iff hd data surface plevels _ "t" "t2m").mpr h
        cases h2 : interpBlock hd data surface plevels
            (heightLevels low high interval) "dpt" "d2m" <;>
        cases h3 : interpBlock hd data surface plevels
            (heightLevels low high interval) "u" "u10" <;>
        cases h4 : interpBlock hd data surface plevels
            (heightLevels low high interval) "v" "v10" <;>
          simp [h1, h2, h3, h4]
      · have h2 : interpBlock hd data surface plevels
            (heightLevels low high interval) "dpt" "d2m" = none :=
          (interpBlock_eq_none_iff hd data surface plevels _ "dpt" "d2m").mpr h
        cases h1 : interpBlock hd data surface plevels
            (heightLevels low high interval) "t" "t2m" <;>
        cases h3 : interpBlock hd data surface plevels
            (heightLevels low high interval) "u" "u10" <;>
        cases h4 : interpBlock hd data surface plevels
            (heightLevels low high interval) "v" "v10" <;>
          simp [h1, h2, h3, h4]
      · have h3 : interpBlock hd data surface plevels
            (heightLevels low high interval) "u" "u10" = none :=
          (interpBlock_eq_none_iff hd data surface plevels _ "u" "u10").mpr h
        cases h1 : interpBlock hd data surface plevels
            (heightLevels low high interval) "t" "t2m" <;>
        cases h2 : interpBlock hd data surface plevels
            (heightLevels low high interval) "dpt" "d2m" <;>
        cases h4 : interpBlock hd data surface plevels
            (heightLevels low high interval) "v" "v10" <;>
          simp [h1, h2, h3, h4]
      · have h4 : interpBlock hd data surface plevels
            (heightLevels low high interval) "v" "v10" = none :=
          (interpBlock_eq_none_iff hd data surface plevels _ "v" "v10").mpr h
        cases h1 : interpBlock hd data surface plevels
            (heightLevels low high interval) "t" "t2m" <;>
        cases h2 : interpBlock hd data surface plevels
            (heightLevels low high interval) "dpt" "d2m" <;>
        cases h3 : interpBlock hd data surface plevels
            (heightLevels low high interval) "u" "u10" <;>
          simp [h1, h2, h3, h4]

/-- C8 counterexample: the profile data `exProfile` contains two pressure
levels (ten variable columns), the configuration names only one pressure
level — the level counts disagree — yet `convert_and_interpolate` succeeds:
column selection only requires the configured columns to be present and
ignores the extra level. -/
theorem levelCount_mismatch_without_failure :
    (convertAndInterpolate exProfile exSurface [500] 0 1000 500).isOk = true ∧
    exProfile.cols.length = 5 * 2 ∧ ([500] : List ℤ).length = 1 := by
  refine ⟨?_, rfl, rfl⟩
  simp only [convertAndInterpolate, exHeights]
  rfl

/-- C8 (amended): for a nonempty pressure-level configuration, a valid
height-level configuration and a surface table holding the four surface
variables, the Vertical Interpolator fails with the dimension-mismatch error
exactly when some configured `(variable, pressure-level)` column is absent
from the flattened profile data.  A mere count disagreement in which the
data has extra pressure levels beyond the configured list does not fail. -/
theorem dimensionMismatch_iff_missing_column (data surface : FlatTable)
    (plevels : List ℤ) (low high interval : ℚ) (hpos : 0 < interval)
    (hle : low ≤ high) (hnep : plevels ≠ [])
    (hs : ∀ p ∈ surfacePairs, (surface.cols.lookup p.2).isSome = true) :
    (convertAndInterpolate data surface plevels low high interval
        = .error .dimensionMismatchError) ↔
      ∃ v ∈ profileVars, ∃ nm ∈ profileCols plevels v,
        data.cols.lookup nm = none := by
  have hsv : ∀ sv ∈ ["t2m", "d2m", "u10", "v10"], ¬ surface.cols.lookup sv = none := by
    intro sv hsv hnone
    have hmem : ∃ p ∈ surfacePairs, p.2 = sv := by
      simp only [List.mem_cons, List.not_mem_nil, or_false] at hsv
      rcases hsv with rfl | rfl | rfl | rfl
      · exact ⟨("t", "t2m"), by simp [surfacePairs]⟩
      · exact ⟨("dpt", "d2m"), by simp [surfacePairs]⟩
      · exact ⟨("u", "u10"), by simp [surfacePairs]⟩
      · exact ⟨("v", "v10"), by simp [surfacePairs]⟩
    rcases hmem with ⟨p, hp, hpv⟩
    have := hs p hp
    rw [hpv, hnone] at this
    exact absurd this (by simp)
  rw [convertAndInterpolate_error_char]
  constructor
  · rintro (h | (h | h) | (h | h) | (h | h) | (h | h))
    · exact ⟨"hgt_above_sfc", by simp [profileVars], (getMatrix_eq_none_iff _ _).mp h⟩
    · exact ⟨"t", by simp [profileVars], (getMatrix_eq_none_iff _ _).mp h⟩
    · exact absurd h (hsv "t2m" (by simp))
    · exact ⟨"dpt", by simp [profileVars], (getMatrix_eq_none_iff _ _).mp h⟩
    · exact absurd h (hsv "d2m" (by simp))
    · exact ⟨"u", by simp [profileVars], (getMatrix_eq_none_iff _ _).mp h⟩
    · exact absurd h (hsv "u10" (by simp))
    · exact ⟨"v", by simp [profileVars], (getMatrix_eq_none_iff _ _).mp h⟩
    · exact absurd h (hsv "v10" (by simp))
  · rintro ⟨v, hv, hnm⟩
    simp only [profileVars, List.mem_cons, List.not_mem_nil, or_false] at hv
    rcases hv with rfl | rfl | rfl | rfl | rfl
    · exact Or.inr (Or.inl (Or.inl ((getMatrix_eq_none_iff _ _).mpr hnm)))
    · exact Or.inr (Or.inr (Or.inl (Or.inl ((getMatrix_eq_none_iff _ _).mpr hnm))))
    · exact Or.inr (Or.inr (Or.inr (Or.inl (Or.inl
        ((getMatrix_eq_none_iff _ _).mpr hnm)))))
    · exact Or.inr (Or.inr (Or.inr (Or.inr (Or.inl
        ((getMatrix_eq_none_iff _ _).mpr hnm)))))
    · exact Or.inl ((getMatrix_eq_none_iff _ _).mpr hnm)

/-- Witness for C8's amended theorem: `exProfile` against a configuration
naming the absent level 1500. -/
theorem dimensionMismatch_iff_missing_column_witness :
    (0 : ℚ) < 500 ∧ (0 : ℚ) ≤ 1000 ∧ ([500, 1000, 1500] : List ℤ) ≠ [] ∧
    ((convertAndInterpolate exProfile exSurface [500, 1000, 1500] 0 1000 500
        = .error .dimensionMismatchError) ↔
      ∃ v ∈ profileVars, ∃ nm ∈ profileCols [500, 1000, 1500] v,
        exProfile.cols.lookup nm = none) :=
  ⟨by decide, by decide, by simp,
   dimensionMismatch_iff_missing_column exProfile exSurface [500, 1000, 1500] 0 1000 500
     (by decide) (by decide) (by simp) (by decide)⟩

end Ptype
